import Mathlib

/-!
Shallow embedding of the `dora` infinite-canvas core: the viewport
controller (pan/zoom, `screenToWorld`, wheel zoom), the marquee selection
resolution, the generate trigger, and the per-element transform-gesture
engine (`handleInteractionMove` of `TransformableElement.tsx`).

JavaScript numbers are modelled as real numbers; `Math.atan2`,
`Math.sqrt`, `Math.cos`, `Math.sin` become their exact mathematical
counterparts, so the spec's "within floating-point tolerance" clauses are
settled as exact equalities over `ℝ`.
-/

namespace Dora

/-- 2D coordinate, screen-space pixels or world-space units (src/unnamed/part_000, `Point`). -/
@[ext]
structure Point where
  x : ℝ
  y : ℝ

/-- The variant payload of a canvas element (src/unnamed/part_000):
`note` carries content and color, `image` a source reference, `arrow` its
two world-space endpoints (the source's `start`/`end`; `end` is reserved
in Lean so the second endpoint is called `stop`) and a color. -/
inductive ElementKind where
  | note (content color : String)
  | image (src : String)
  | arrow (start stop : Point) (color : String)

/-- The element type tag, `'note' | 'image' | 'arrow'` in src/unnamed/part_000. -/
inductive ElementType where
  | note
  | image
  | arrow
deriving DecidableEq

/-- A canvas element (src/unnamed/part_000, `CanvasElement`): the shared base
fields plus the variant payload. -/
structure CanvasElement where
  id : String
  position : Point
  width : ℝ
  height : ℝ
  rotation : ℝ
  zIndex : ℤ
  kind : ElementKind

/-- The `type` discriminant of an element, as the source's tagged union carries it. -/
def CanvasElement.type (el : CanvasElement) : ElementType :=
  match el.kind with
  | .note _ _ => .note
  | .image _ => .image
  | .arrow _ _ _ => .arrow

/-! ## Viewport controller (src/unnamed/part_001, `InfiniteCanvas`) -/

/-- `MIN_ZOOM` of src/unnamed/part_001 line 30. -/
noncomputable def MIN_ZOOM : ℝ := 0.1

/-- `MAX_ZOOM` of src/unnamed/part_001 line 31. -/
noncomputable def MAX_ZOOM : ℝ := 5

/-- `screenToWorld` (src/unnamed/part_001 lines 52-57): subtract the pan
offset, divide by the zoom factor. -/
noncomputable def screenToWorld (pan : Point) (zoom : ℝ) (screenPoint : Point) : Point :=
  ⟨(screenPoint.x - pan.x) / zoom, (screenPoint.y - pan.y) / zoom⟩

/-- `handleWheel` (src/unnamed/part_001 lines 131-150): computes the world
point under the mouse with the old pan/zoom, derives the zoom factor from
the wheel delta, clamps the new zoom to `[MIN_ZOOM, MAX_ZOOM]`, and sets
the new pan so the same world point stays under the mouse. Returns the new
`(pan, zoom)` pair; `mouse` is the canvas-relative pointer position. -/
noncomputable def handleWheel (pan : Point) (zoom : ℝ) (mouse : Point) (deltaY : ℝ) :
    Point × ℝ :=
  let worldX := (mouse.x - pan.x) / zoom
  let worldY := (mouse.y - pan.y) / zoom
  let zoomFactor := 1 - deltaY * 0.001
  let newZoom := max MIN_ZOOM (min MAX_ZOOM (zoom * zoomFactor))
  let newPanX := mouse.x - worldX * newZoom
  let newPanY := mouse.y - worldY * newZoom
  (⟨newPanX, newPanY⟩, newZoom)

/-- One wheel event as `handleWheel` consumes it: the canvas-relative mouse
position and the wheel delta. -/
structure WheelEvent where
  mouse : Point
  deltaY : ℝ

/-- Folding one wheel event into the viewport state `(pan, zoom)`. -/
noncomputable def applyWheel (s : Point × ℝ) (e : WheelEvent) : Point × ℝ :=
  handleWheel s.1 s.2 e.mouse e.deltaY

/-! ## Transform-gesture engine (src/components/TransformableElement.tsx) -/

/-- The exact mathematical meaning of JavaScript `Math.atan2 y x` at finite
arguments: the angle of the vector `(x, y)` in `(-π, π]`. -/
noncomputable def atan2 (y x : ℝ) : ℝ :=
  if 0 < x then Real.arctan (y / x)
  else if x < 0 then
    if 0 ≤ y then Real.arctan (y / x) + Real.pi
    else Real.arctan (y / x) - Real.pi
  else
    if 0 < y then Real.pi / 2
    else if y < 0 then -(Real.pi / 2)
    else 0

/-- The gesture kinds of `TransformableElement.tsx`:
`'drag' | 'resize' | 'rotate' | 'resize-arrow-start' | 'resize-arrow-end'`. -/
inductive InteractionType where
  | drag
  | resize
  | rotate
  | resizeArrowStart
  | resizeArrowEnd
deriving DecidableEq

/-- The non-null `Interaction` state of `TransformableElement.tsx` lines 14-20:
gesture kind, pointer-down screen point, the full snapshot of the element at
gesture start, and (for rotate only) the start angle and screen-space center. -/
structure Interaction where
  type : InteractionType
  startPoint : Point
  startElement : CanvasElement
  startAngle : Option ℝ := none
  center : Option Point := none

/-- The arrow update shared by the `resize-arrow-start` and `resize-arrow-end`
branches of `handleInteractionMove` (TransformableElement.tsx lines 122-136):
given the (possibly moved) endpoints, recompute width (floored at 10),
rotation and position from them and spread the rest of the snapshot. -/
noncomputable def arrowEndpointUpdate (startElement : CanvasElement)
    (start stop : Point) (color : String) : CanvasElement :=
  let newDx := stop.x - start.x
  let newDy := stop.y - start.y
  let newWidth := max 10 (Real.sqrt (newDx * newDx + newDy * newDy))
  let newRotation := atan2 newDy newDx * (180 / Real.pi)
  let newPosition : Point := ⟨(start.x + stop.x) / 2, (start.y + stop.y) / 2⟩
  { startElement with
    kind := ElementKind.arrow start stop color,
    position := newPosition,
    width := newWidth,
    rotation := newRotation }

/-- `handleInteractionMove` (TransformableElement.tsx lines 54-138). Inputs:
the active interaction, the zoom factor, the move event's client position, and
the component's current `element` prop (used only for the drag delta). Output:
`some (el, dragDelta?)` for the `onUpdate(el, dragDelta?)` call the handler
makes, `none` when it makes none (rotate without center/startAngle; the
`resize-arrow-*` cast `startElement as ArrowElement` assumes the gesture
started on an arrow's endpoint handle, so a non-arrow snapshot makes no
well-typed update). -/
noncomputable def handleInteractionMove (interaction : Interaction) (zoom : ℝ)
    (client : Point) (element : CanvasElement) : Option (CanvasElement × Option Point) :=
  let dx := (client.x - interaction.startPoint.x) / zoom
  let dy := (client.y - interaction.startPoint.y) / zoom
  let startElement := interaction.startElement
  match interaction.type with
  | .drag =>
      let newPosition : Point :=
        ⟨startElement.position.x + dx, startElement.position.y + dy⟩
      let delta : Point :=
        ⟨newPosition.x - element.position.x, newPosition.y - element.position.y⟩
      match startElement.kind with
      | .arrow s e c =>
          some ({ startElement with
                  position := newPosition,
                  kind := ElementKind.arrow ⟨s.x + dx, s.y + dy⟩ ⟨e.x + dx, e.y + dy⟩ c },
                some delta)
      | _ => some ({ startElement with position := newPosition }, some delta)
  | .resize =>
      let rad := startElement.rotation * (Real.pi / 180)
      let c := Real.cos (-rad)
      let s := Real.sin (-rad)
      let rotDx := dx * c - dy * s
      let rotDy := dx * s + dy * c
      let newWidth := max 20 (startElement.width + rotDx)
      let newHeight := max 20 (startElement.height + rotDy)
      let dw := newWidth - startElement.width
      let dh := newHeight - startElement.height
      let posDx := (dw / 2 * Real.cos rad) - (dh / 2 * Real.sin rad)
      let posDy := (dw / 2 * Real.sin rad) + (dh / 2 * Real.cos rad)
      some ({ startElement with
              width := newWidth,
              height := newHeight,
              position := ⟨startElement.position.x + posDx, startElement.position.y + posDy⟩ },
            none)
  | .rotate =>
      match interaction.center, interaction.startAngle with
      | some center, some startAngle =>
          let currentAngle := atan2 (client.y - center.y) (client.x - center.x)
          let angleDiff := currentAngle - startAngle
          some ({ startElement with
                  rotation := startElement.rotation + angleDiff * (180 / Real.pi) },
                none)
      | _, _ => none
  | .resizeArrowStart =>
      match startElement.kind with
      | .arrow s0 e0 col =>
          some (arrowEndpointUpdate startElement ⟨s0.x + dx, s0.y + dy⟩ e0 col, none)
      | _ => none
  | .resizeArrowEnd =>
      match startElement.kind with
      | .arrow s0 e0 col =>
          some (arrowEndpointUpdate startElement s0 ⟨e0.x + dx, e0.y + dy⟩ col, none)
      | _ => none

/-- The element after a sequence of move events: each move event feeds
`handleInteractionMove` and its `onUpdate` payload replaces the element
(the document store replaces the element by identifier on every tick);
a move that makes no `onUpdate` call leaves the element as it was. -/
noncomputable def processMoves (interaction : Interaction) (zoom : ℝ)
    (el0 : CanvasElement) (clients : List Point) : CanvasElement :=
  clients.foldl
    (fun el client =>
      match handleInteractionMove interaction zoom client el with
      | some (el', _) => el'
      | none => el)
    el0

/-- The spec's arrow invariant (§3): whenever the element is an arrow with
endpoints `s`, `e`, its position is the midpoint, its width the Euclidean
distance between the endpoints, and its rotation `atan2` of the
start-to-end vector converted to degrees. -/
def ArrowInvariant (el : CanvasElement) : Prop :=
  ∀ s e c, el.kind = ElementKind.arrow s e c →
    el.position = Point.mk ((s.x + e.x) / 2) ((s.y + e.y) / 2) ∧
    el.width = Real.sqrt ((e.x - s.x) * (e.x - s.x) + (e.y - s.y) * (e.y - s.y)) ∧
    el.rotation = atan2 (e.y - s.y) (e.x - s.x) * (180 / Real.pi)

/-- The arrow invariant as the code maintains it under endpoint edits: the
width is the endpoint distance floored at `floor` (the code floors it at 10);
position and rotation as in `ArrowInvariant`. -/
def ArrowInvariantFloored (floor : ℝ) (el : CanvasElement) : Prop :=
  ∀ s e c, el.kind = ElementKind.arrow s e c →
    el.position = Point.mk ((s.x + e.x) / 2) ((s.y + e.y) / 2) ∧
    el.width = max floor
      (Real.sqrt ((e.x - s.x) * (e.x - s.x) + (e.y - s.y) * (e.y - s.y))) ∧
    el.rotation = atan2 (e.y - s.y) (e.x - s.x) * (180 / Real.pi)

/-- A concrete note element used by witnesses: a 100×50 unrotated note at the
world origin. -/
noncomputable def sampleNote : CanvasElement :=
  ⟨"n1", ⟨0, 0⟩, 100, 50, 0, 0, ElementKind.note "hello" "bg-yellow-400"⟩

/-- A concrete arrow from `(0,0)` to `(100,0)` whose derived fields satisfy
the arrow invariant: position `(50,0)`, width `100`, rotation `0`. -/
noncomputable def sampleArrow : CanvasElement :=
  ⟨"a1", ⟨50, 0⟩, 100, 30, 0, 1, ElementKind.arrow ⟨0, 0⟩ ⟨100, 0⟩ "text-red-500"⟩

/-- The `resize-arrow-end` gesture on `sampleArrow` that drags the arrow's end
from under the pointer at `(0,0)`. -/
noncomputable def shrinkEndInteraction : Interaction :=
  ⟨InteractionType.resizeArrowEnd, ⟨0, 0⟩, sampleArrow, none, none⟩

/-- The element `handleInteractionMove` produces for `shrinkEndInteraction` at
zoom 1 with the pointer at `(-99, 0)`: the end lands at `(1, 0)`, so the
endpoint distance is `1` but the width is floored at `10`. -/
noncomputable def shrunkArrow : CanvasElement :=
  { sampleArrow with
    kind := ElementKind.arrow ⟨0, 0⟩ ⟨1, 0⟩ "text-red-500",
    position := ⟨1 / 2, 0⟩,
    width := 10,
    rotation := 0 }

/-! ## Marquee selection, mouse down and the generate trigger
(src/unnamed/part_001) -/

/-- The world-space axis-aligned `selectionBox` of `handleMouseUp`
(src/unnamed/part_001 lines 102-107). -/
structure SelectionBox where
  minX : ℝ
  maxX : ℝ
  minY : ℝ
  maxY : ℝ

/-- `handleMouseUp` lines 99-107: convert both marquee corners with
`screenToWorld` and take the axis-aligned min/max box. -/
noncomputable def marqueeSelectionBox (pan : Point) (zoom : ℝ) (mStart mEnd : Point) :
    SelectionBox :=
  let startWorld := screenToWorld pan zoom mStart
  let endWorld := screenToWorld pan zoom mEnd
  ⟨min startWorld.x endWorld.x, max startWorld.x endWorld.x,
    min startWorld.y endWorld.y, max startWorld.y endWorld.y⟩

/-- The filter predicate of `handleMouseUp` lines 109-114: the element's
center position lies inside the selection box. -/
noncomputable def inSelectionBox (box : SelectionBox) (el : CanvasElement) : Bool :=
  decide (el.position.x ≥ box.minX ∧ el.position.x ≤ box.maxX ∧
    el.position.y ≥ box.minY ∧ el.position.y ≤ box.maxY)

/-- The `selectedIds` list of `handleMouseUp` lines 109-114: ids of the
elements whose center lies inside the marquee's world-space box. -/
noncomputable def marqueeSelectedIds (pan : Point) (zoom : ℝ) (mStart mEnd : Point)
    (elements : List CanvasElement) : List String :=
  let selectionBox := marqueeSelectionBox pan zoom mStart mEnd
  (elements.filter (fun el => inSelectionBox selectionBox el)).map CanvasElement.id

/-- `handleMouseUp` (src/unnamed/part_001 lines 96-121) restricted to its
observable call: `some (ids, shiftKey)` when it invokes
`onMarqueeSelect(ids, shiftKey)` (which it does only when a marquee rectangle
is active and `selectedIds` is non-empty), `none` when it makes no call. -/
noncomputable def handleMouseUp (pan : Point) (zoom : ℝ)
    (marqueeRect : Option (Point × Point)) (elements : List CanvasElement)
    (shiftKey : Bool) : Option (List String × Bool) :=
  match marqueeRect with
  | none => none
  | some r =>
      let selectedIds := marqueeSelectedIds pan zoom r.1 r.2 elements
      if selectedIds.length > 0 then some (selectedIds, shiftKey) else none

/-- The observable effects of `handleMouseDown` (src/unnamed/part_001 lines
83-94): the `onSelectElement` call it makes (if any) and the state it sets
(`none` = left untouched by the early return). -/
structure MouseDownOutcome where
  selectCall : Option (Option String × Bool)
  setMarqueeRect : Option (Point × Point)
  setIsPanning : Option Bool
  setStartPan : Option Point

/-- `handleMouseDown` (src/unnamed/part_001 lines 83-94): non-left buttons and
pointer-downs on a transform handle, element body or the generate button
return early; with the spacebar held a pan starts; otherwise
`onSelectElement(null, shiftKey)` is called and a zero-size marquee starts at
the pointer. -/
noncomputable def handleMouseDown (pan : Point) (isSpacebarPressed : Bool) (client : Point)
    (button : Nat) (targetIsInteractive : Bool) (shiftKey : Bool) : MouseDownOutcome :=
  if button ≠ 0 ∨ targetIsInteractive = true then ⟨none, none, none, none⟩
  else if isSpacebarPressed then
    ⟨none, none, some true, some ⟨client.x - pan.x, client.y - pan.y⟩⟩
  else ⟨some (none, shiftKey), some (client, client), none, none⟩

/-- `handleGenerateClick` (src/unnamed/part_001 lines 205-210) restricted to
its observable call: `some selectedElements` when it invokes
`onGenerate(selectedElements)` (only when the current selection is
non-empty), `none` when it makes no call and changes no state. -/
def handleGenerateClick (elements : List CanvasElement)
    (selectedElementIds : List String) : Option (List CanvasElement) :=
  let selectedElements := elements.filter (fun el => selectedElementIds.contains el.id)
  if selectedElements.length > 0 then some selectedElements else none

/-- A 100×100 note whose center `(10, 10)` lies outside the world box
`[0,5] × [0,5]` although its body overlaps it. -/
noncomputable def bigNote : CanvasElement :=
  ⟨"E", ⟨10, 10⟩, 100, 100, 0, 2, ElementKind.note "big" "bg-red-400"⟩

end Dora

namespace Dora

/-! ## Theorems: viewport claims -/

lemma min_zoom_le_handleWheel_zoom (pan : Point) (zoom : ℝ) (mouse : Point) (deltaY : ℝ) :
    MIN_ZOOM ≤ (handleWheel pan zoom mouse deltaY).2 :=
  le_max_left _ _

lemma handleWheel_zoom_le_max_zoom (pan : Point) (zoom : ℝ) (mouse : Point) (deltaY : ℝ) :
    (handleWheel pan zoom mouse deltaY).2 ≤ MAX_ZOOM := by
  refine max_le ?_ (min_le_left _ _)
  show (0.1 : ℝ) ≤ 5
  norm_num

/-- C1. Zoom-anchor invariant: for every pan, every zoom in `[0.1, 5]`, every
canvas-relative screen point and every wheel delta, the world point under the
pointer after one `handleWheel` step equals the world point under it before
the step: `screenToWorld` with the new `(pan, zoom)` agrees with
`screenToWorld` with the old `(pan, zoom)` at the pointer position. -/
theorem zoom_anchor_invariant (pan : Point) (zoom : ℝ) (mouse : Point) (deltaY : ℝ)
    (hlo : MIN_ZOOM ≤ zoom) (hhi : zoom ≤ MAX_ZOOM) :
    screenToWorld (handleWheel pan zoom mouse deltaY).1 (handleWheel pan zoom mouse deltaY).2
      mouse = screenToWorld pan zoom mouse := by
  have hzZ : (0 : ℝ) < max MIN_ZOOM (min MAX_ZOOM (zoom * (1 - deltaY * 0.001))) :=
    lt_of_lt_of_le (by show (0 : ℝ) < 0.1; norm_num) (le_max_left _ _)
  simp only [handleWheel, screenToWorld]
  ext
  · dsimp only
    rw [sub_sub_cancel]
    exact mul_div_cancel_right₀ _ (ne_of_gt hzZ)
  · dsimp only
    rw [sub_sub_cancel]
    exact mul_div_cancel_right₀ _ (ne_of_gt hzZ)

/-- C1 witness: the invariant at pan `(0,0)`, zoom `1`, pointer `(100,100)`,
wheel delta `-1000` (zoom factor 2). -/
theorem zoom_anchor_invariant_witness :
    screenToWorld (handleWheel ⟨0, 0⟩ 1 ⟨100, 100⟩ (-1000)).1
        (handleWheel ⟨0, 0⟩ 1 ⟨100, 100⟩ (-1000)).2 ⟨100, 100⟩ =
      screenToWorld ⟨0, 0⟩ 1 ⟨100, 100⟩ :=
  zoom_anchor_invariant ⟨0, 0⟩ 1 ⟨100, 100⟩ (-1000)
    (by show (0.1 : ℝ) ≤ 1; norm_num) (by show (1 : ℝ) ≤ 5; norm_num)

lemma zoom_bounds_foldl (events : List WheelEvent) (s : Point × ℝ)
    (hlo : MIN_ZOOM ≤ s.2) (hhi : s.2 ≤ MAX_ZOOM) :
    MIN_ZOOM ≤ (events.foldl applyWheel s).2 ∧ (events.foldl applyWheel s).2 ≤ MAX_ZOOM := by
  induction events generalizing s with
  | nil => exact ⟨hlo, hhi⟩
  | cons e es ih =>
      exact ih (applyWheel s e)
        (min_zoom_le_handleWheel_zoom _ _ _ _) (handleWheel_zoom_le_max_zoom _ _ _ _)

/-- C2. Zoom bounds invariant: starting from the initial zoom of `1` (and any
initial pan), after any finite sequence of wheel events — arbitrary deltas and
pointer positions — the zoom component of the viewport state stays in
`[MIN_ZOOM, MAX_ZOOM] = [0.1, 5]`. -/
theorem zoom_bounds_invariant (events : List WheelEvent) (pan0 : Point) :
    MIN_ZOOM ≤ (events.foldl applyWheel (pan0, 1)).2 ∧
      (events.foldl applyWheel (pan0, 1)).2 ≤ MAX_ZOOM :=
  zoom_bounds_foldl events (pan0, 1)
    (by show (0.1 : ℝ) ≤ 1; norm_num) (by show (1 : ℝ) ≤ 5; norm_num)

/-! ## Theorems: gesture-engine claims -/

/-- C4. Drag rule: for every snapshot, gesture-start point, zoom, move-event
position and current element, the drag branch calls `onUpdate` with an element
whose position is the snapshot position translated by the world delta
`((client - startPoint) / zoom)`; width, height and rotation keep their
snapshot values, and when the snapshot is an arrow both endpoints are
translated by the same world delta. -/
theorem drag_rule (snapshot : CanvasElement) (startPoint : Point) (zoom : ℝ)
    (client : Point) (element : CanvasElement) :
    ∃ el' delta,
      handleInteractionMove ⟨InteractionType.drag, startPoint, snapshot, none, none⟩
          zoom client element = some (el', some delta) ∧
      el'.position = Point.mk (snapshot.position.x + (client.x - startPoint.x) / zoom)
        (snapshot.position.y + (client.y - startPoint.y) / zoom) ∧
      el'.width = snapshot.width ∧
      el'.height = snapshot.height ∧
      el'.rotation = snapshot.rotation ∧
      ∀ s e c, snapshot.kind = ElementKind.arrow s e c →
        el'.kind = ElementKind.arrow
          ⟨s.x + (client.x - startPoint.x) / zoom, s.y + (client.y - startPoint.y) / zoom⟩
          ⟨e.x + (client.x - startPoint.x) / zoom, e.y + (client.y - startPoint.y) / zoom⟩
          c := by
  obtain ⟨i, pos, w, h, rot, z, kind⟩ := snapshot
  cases kind with
  | note content color =>
      exact ⟨_, _, rfl, rfl, rfl, rfl, rfl, fun s e c hc => by cases hc⟩
  | image src =>
      exact ⟨_, _, rfl, rfl, rfl, rfl, rfl, fun s e c hc => by cases hc⟩
  | arrow s0 e0 col =>
      exact ⟨_, _, rfl, rfl, rfl, rfl, rfl, fun s e c hc => by cases hc; rfl⟩

/-- C5. Resize floor: for every note or image snapshot, the resize branch
calls `onUpdate` with width `max 20 (snapshot.width + rotDx)` and height
`max 20 (snapshot.height + rotDy)`, where `(rotDx, rotDy)` is the world delta
rotated by the negated snapshot rotation; both results are at least 20. -/
theorem resize_floor (snapshot : CanvasElement) (startPoint : Point) (zoom : ℝ)
    (client : Point) (element : CanvasElement) (startAngle : Option ℝ) (center : Option Point)
    (hkind : snapshot.type = ElementType.note ∨ snapshot.type = ElementType.image) :
    ∃ el',
      handleInteractionMove ⟨InteractionType.resize, startPoint, snapshot, startAngle, center⟩
          zoom client element = some (el', none) ∧
      el'.width = max 20 (snapshot.width +
        ((client.x - startPoint.x) / zoom * Real.cos (-(snapshot.rotation * (Real.pi / 180))) -
          (client.y - startPoint.y) / zoom *
            Real.sin (-(snapshot.rotation * (Real.pi / 180))))) ∧
      el'.height = max 20 (snapshot.height +
        ((client.x - startPoint.x) / zoom * Real.sin (-(snapshot.rotation * (Real.pi / 180))) +
          (client.y - startPoint.y) / zoom *
            Real.cos (-(snapshot.rotation * (Real.pi / 180))))) ∧
      20 ≤ el'.width ∧ 20 ≤ el'.height :=
  ⟨_, rfl, rfl, rfl, le_max_left _ _, le_max_left _ _⟩

/-- C5 witness: the resize floor at the concrete note `sampleNote`, gesture
start `(0,0)`, zoom 1, pointer `(5,7)`. -/
theorem resize_floor_witness :
    ∃ el',
      handleInteractionMove ⟨InteractionType.resize, ⟨0, 0⟩, sampleNote, none, none⟩
          1 ⟨5, 7⟩ sampleNote = some (el', none) ∧
      20 ≤ el'.width ∧ 20 ≤ el'.height := by
  obtain ⟨el', heq, _, _, hw, hh⟩ :=
    resize_floor sampleNote ⟨0, 0⟩ 1 ⟨5, 7⟩ sampleNote none none (Or.inl rfl)
  exact ⟨el', heq, hw, hh⟩

/-- C6. Resize anchor: for a non-rotated note snapshot, the resize update
keeps the world coordinates of the top-left corner
`position - (width/2, height/2)` equal to the snapshot's. -/
theorem resize_anchor (snapshot : CanvasElement) (startPoint : Point) (zoom : ℝ)
    (client : Point) (element : CanvasElement) (startAngle : Option ℝ) (center : Option Point)
    (hnote : snapshot.type = ElementType.note) (hrot : snapshot.rotation = 0) :
    ∃ el',
      handleInteractionMove ⟨InteractionType.resize, startPoint, snapshot, startAngle, center⟩
          zoom client element = some (el', none) ∧
      el'.position.x - el'.width / 2 = snapshot.position.x - snapshot.width / 2 ∧
      el'.position.y - el'.height / 2 = snapshot.position.y - snapshot.height / 2 := by
  refine ⟨_, rfl, ?_, ?_⟩
  · dsimp only [handleInteractionMove]
    rw [hrot]
    norm_num
    ring_nf
  · dsimp only [handleInteractionMove]
    rw [hrot]
    norm_num
    ring_nf

/-- C6 witness: the resize anchor at `sampleNote` (rotation 0), gesture start
`(0,0)`, zoom 1, pointer `(5,7)`. -/
theorem resize_anchor_witness :
    ∃ el',
      handleInteractionMove ⟨InteractionType.resize, ⟨0, 0⟩, sampleNote, none, none⟩
          1 ⟨5, 7⟩ sampleNote = some (el', none) ∧
      el'.position.x - el'.width / 2 = sampleNote.position.x - sampleNote.width / 2 ∧
      el'.position.y - el'.height / 2 = sampleNote.position.y - sampleNote.height / 2 :=
  resize_anchor sampleNote ⟨0, 0⟩ 1 ⟨5, 7⟩ sampleNote none none rfl rfl

/-! ## Theorems: the arrow invariant (C3) -/

lemma atan2_zero_of_pos (x : ℝ) (hx : 0 < x) : atan2 0 x = 0 := by
  unfold atan2
  rw [if_pos hx, zero_div, Real.arctan_zero]

lemma sampleArrow_invariant : ArrowInvariant sampleArrow := by
  intro s e c hc
  injection hc with h1 h2 h3
  subst h1
  subst h2
  refine ⟨?_, ?_, ?_⟩
  · ext <;> norm_num [sampleArrow]
  · show (100 : ℝ) = _
    rw [show ((100 : ℝ) - 0) * ((100 : ℝ) - 0) + ((0 : ℝ) - 0) * ((0 : ℝ) - 0) = 100 ^ 2 by
      norm_num]
    rw [Real.sqrt_sq (by norm_num : (0 : ℝ) ≤ 100)]
  · show (0 : ℝ) = _
    rw [show ((0 : ℝ) - 0) = (0 : ℝ) by norm_num]
    rw [atan2_zero_of_pos _ (by norm_num : (0 : ℝ) < 100 - 0), zero_mul]

lemma shrink_eval :
    handleInteractionMove shrinkEndInteraction 1 ⟨-99, 0⟩ sampleArrow =
      some (shrunkArrow, none) := by
  have hpt : (⟨100 + ((-99 : ℝ) - 0) / 1, 0 + ((0 : ℝ) - 0) / 1⟩ : Point) = ⟨1, 0⟩ := by
    ext <;> norm_num
  show some (arrowEndpointUpdate sampleArrow ⟨0, 0⟩
      ⟨100 + ((-99 : ℝ) - 0) / 1, 0 + ((0 : ℝ) - 0) / 1⟩ "text-red-500", none) = _
  rw [hpt]
  unfold arrowEndpointUpdate shrunkArrow
  dsimp only
  have hw : max (10 : ℝ)
      (Real.sqrt (((1 : ℝ) - 0) * ((1 : ℝ) - 0) + ((0 : ℝ) - 0) * ((0 : ℝ) - 0))) = 10 := by
    rw [show ((1 : ℝ) - 0) * ((1 : ℝ) - 0) + ((0 : ℝ) - 0) * ((0 : ℝ) - 0) = 1 by norm_num]
    rw [Real.sqrt_one]
    exact max_eq_left (by norm_num)
  have hr : atan2 ((0 : ℝ) - 0) ((1 : ℝ) - 0) * (180 / Real.pi) = 0 := by
    rw [show ((0 : ℝ) - 0) = (0 : ℝ) by norm_num]
    rw [atan2_zero_of_pos _ (by norm_num : (0 : ℝ) < 1 - 0), zero_mul]
  rw [hw, hr]
  have hpos : (⟨((0 : ℝ) + 1) / 2, ((0 : ℝ) + 0) / 2⟩ : Point) = (⟨1 / 2, 0⟩ : Point) := by
    ext <;> norm_num
  rw [hpos]

/-- C3 counterexample: `sampleArrow` (from `(0,0)` to `(100,0)`) satisfies the
arrow invariant, and one `resize-arrow-end` move at zoom 1 dragging the end to
`(1,0)` produces an element that violates it: the endpoint distance is 1 but
the produced width is the floor 10. -/
theorem arrow_invariant_counterexample :
    ArrowInvariant sampleArrow ∧
    handleInteractionMove shrinkEndInteraction 1 ⟨-99, 0⟩ sampleArrow =
      some (shrunkArrow, none) ∧
    ¬ ArrowInvariant shrunkArrow := by
  refine ⟨sampleArrow_invariant, shrink_eval, fun hinv => ?_⟩
  obtain ⟨-, hw, -⟩ := hinv ⟨0, 0⟩ ⟨1, 0⟩ "text-red-500" rfl
  rw [show ((1 : ℝ) - 0) * ((1 : ℝ) - 0) + ((0 : ℝ) - 0) * ((0 : ℝ) - 0) = 1 by norm_num,
    Real.sqrt_one] at hw
  exact absurd hw (by norm_num [shrunkArrow])

/-- C3 (amended). For a snapshot satisfying the arrow invariant: a drag update
preserves the invariant exactly, and a `resize-arrow-start` or
`resize-arrow-end` update produces an element whose position and rotation
satisfy the invariant and whose width is `max 10 |end - start|` — equal to
`|end - start|` whenever that distance is at least the floor 10. -/
theorem arrow_invariant_roundtrip_amended (interaction : Interaction) (zoom : ℝ)
    (client : Point) (element el' : CanvasElement) (d : Option Point)
    (hinv : ArrowInvariant interaction.startElement)
    (hmove : handleInteractionMove interaction zoom client element = some (el', d)) :
    (interaction.type = InteractionType.drag → ArrowInvariant el') ∧
    ((interaction.type = InteractionType.resizeArrowStart ∨
        interaction.type = InteractionType.resizeArrowEnd) →
      ArrowInvariantFloored 10 el') := by
  obtain ⟨t, sp, ⟨i, pos, w, h, rot, z, kind⟩, sa, ce⟩ := interaction
  cases t with
  | drag =>
      refine ⟨(fun _ => ?_), (fun hab => nomatch hab)⟩
      cases kind with
      | note content color =>
          simp only [handleInteractionMove, Option.some.injEq, Prod.mk.injEq] at hmove
          obtain ⟨hel, -⟩ := hmove
          subst hel
          intro s e c hc
          cases hc
      | image src =>
          simp only [handleInteractionMove, Option.some.injEq, Prod.mk.injEq] at hmove
          obtain ⟨hel, -⟩ := hmove
          subst hel
          intro s e c hc
          cases hc
      | arrow s0 e0 c0 =>
          simp only [handleInteractionMove, Option.some.injEq, Prod.mk.injEq] at hmove
          obtain ⟨hel, -⟩ := hmove
          subst hel
          obtain ⟨hp, hw, hr⟩ := hinv s0 e0 c0 rfl
          dsimp only at hp hw hr
          intro s e c hc
          injection hc with hs he hcc
          subst hs
          subst he
          dsimp only
          refine ⟨?_, ?_, ?_⟩
          · rw [hp]
            ext <;> dsimp only <;> ring
          · rw [hw]
            congr 1
            ring
          · rw [hr]
            rw [show e0.y + (client.y - sp.y) / zoom - (s0.y + (client.y - sp.y) / zoom)
                = e0.y - s0.y by ring]
            rw [show e0.x + (client.x - sp.x) / zoom - (s0.x + (client.x - sp.x) / zoom)
                = e0.x - s0.x by ring]
  | resize =>
      exact ⟨(fun hd => nomatch hd), (fun hab => nomatch hab)⟩
  | rotate =>
      exact ⟨(fun hd => nomatch hd), (fun hab => nomatch hab)⟩
  | resizeArrowStart =>
      refine ⟨(fun hd => nomatch hd), (fun _ => ?_)⟩
      cases kind with
      | note content color =>
          simp only [handleInteractionMove] at hmove
          exact Option.noConfusion hmove
      | image src =>
          simp only [handleInteractionMove] at hmove
          exact Option.noConfusion hmove
      | arrow s0 e0 c0 =>
          simp only [handleInteractionMove, Option.some.injEq, Prod.mk.injEq] at hmove
          obtain ⟨hel, -⟩ := hmove
          subst hel
          intro s e c hc
          unfold arrowEndpointUpdate at hc ⊢
          injection hc with hs he hcc
          subst hs
          subst he
          exact ⟨rfl, rfl, rfl⟩
  | resizeArrowEnd =>
      refine ⟨(fun hd => nomatch hd), (fun _ => ?_)⟩
      cases kind with
      | note content color =>
          simp only [handleInteractionMove] at hmove
          exact Option.noConfusion hmove
      | image src =>
          simp only [handleInteractionMove] at hmove
          exact Option.noConfusion hmove
      | arrow s0 e0 c0 =>
          simp only [handleInteractionMove, Option.some.injEq, Prod.mk.injEq] at hmove
          obtain ⟨hel, -⟩ := hmove
          subst hel
          intro s e c hc
          unfold arrowEndpointUpdate at hc ⊢
          injection hc with hs he hcc
          subst hs
          subst he
          exact ⟨rfl, rfl, rfl⟩

/-- C3 (amended) witness: the floored invariant for the concrete
`resize-arrow-end` move of the counterexample. -/
theorem arrow_invariant_roundtrip_amended_witness : ArrowInvariantFloored 10 shrunkArrow :=
  (arrow_invariant_roundtrip_amended shrinkEndInteraction 1 ⟨-99, 0⟩ sampleArrow
      shrunkArrow none sampleArrow_invariant shrink_eval).2 (Or.inr rfl)

/-! ## Theorems: snapshot purity (C7) -/

lemma move_result_independent (interaction : Interaction) (zoom : ℝ) (client : Point)
    (e1 e2 : CanvasElement) :
    (handleInteractionMove interaction zoom client e1).map Prod.fst =
      (handleInteractionMove interaction zoom client e2).map Prod.fst := by
  obtain ⟨t, sp, ⟨i, pos, w, h, rot, z, kind⟩, sa, ce⟩ := interaction
  cases t <;> cases kind <;> cases sa <;> cases ce <;> rfl

lemma drag_move_eq (snapshot : CanvasElement) (sp : Point) (zoom : ℝ) (client : Point)
    (element : CanvasElement) (hk : snapshot.type ≠ ElementType.arrow) :
    handleInteractionMove ⟨InteractionType.drag, sp, snapshot, none, none⟩ zoom client
        element =
      some ({ snapshot with
              position := ⟨snapshot.position.x + (client.x - sp.x) / zoom,
                snapshot.position.y + (client.y - sp.y) / zoom⟩ },
            some ⟨snapshot.position.x + (client.x - sp.x) / zoom - element.position.x,
              snapshot.position.y + (client.y - sp.y) / zoom - element.position.y⟩) := by
  obtain ⟨i, pos, w, h, rot, z, kind⟩ := snapshot
  cases kind with
  | note content color => rfl
  | image src => rfl
  | arrow s0 e0 c0 => exact absurd rfl hk

/-- C7. Snapshot purity: for a fixed interaction (gesture kind, gesture-start
point and snapshot), fixed zoom and fixed final pointer position, the element
produced by the last move update is the same no matter which intermediate move
events were processed before it (and no matter which element the sequence
started from): the produced element is a function of the snapshot and the
final pointer position only. -/
theorem snapshot_purity (interaction : Interaction) (zoom : ℝ)
    (elA elB : CanvasElement) (clientsA clientsB : List Point) (final : Point)
    (elA' elB' : CanvasElement) (dA dB : Option Point)
    (hA : handleInteractionMove interaction zoom final
        (processMoves interaction zoom elA clientsA) = some (elA', dA))
    (hB : handleInteractionMove interaction zoom final
        (processMoves interaction zoom elB clientsB) = some (elB', dB)) :
    elA' = elB' := by
  have h := move_result_independent interaction zoom final
    (processMoves interaction zoom elA clientsA) (processMoves interaction zoom elB clientsB)
  rw [hA, hB] at h
  simpa using h

/-- C7 witness: a drag on `sampleNote` to final pointer `(5,5)` at zoom 1,
once with no intermediate move event and once with an intermediate move to
`(3,3)`; the last update produces the same element. -/
theorem snapshot_purity_witness :
    ∃ elA' elB' dA dB,
      handleInteractionMove ⟨InteractionType.drag, ⟨0, 0⟩, sampleNote, none, none⟩ 1 ⟨5, 5⟩
          (processMoves ⟨InteractionType.drag, ⟨0, 0⟩, sampleNote, none, none⟩ 1 sampleNote
            []) = some (elA', dA) ∧
      handleInteractionMove ⟨InteractionType.drag, ⟨0, 0⟩, sampleNote, none, none⟩ 1 ⟨5, 5⟩
          (processMoves ⟨InteractionType.drag, ⟨0, 0⟩, sampleNote, none, none⟩ 1 sampleNote
            [⟨3, 3⟩]) = some (elB', dB) ∧
      elA' = elB' := by
  have hna : sampleNote.type ≠ ElementType.arrow := fun h => ElementType.noConfusion h
  have h1 := drag_move_eq sampleNote ⟨0, 0⟩ 1 ⟨5, 5⟩
    (processMoves ⟨InteractionType.drag, ⟨0, 0⟩, sampleNote, none, none⟩ 1 sampleNote []) hna
  have h2 := drag_move_eq sampleNote ⟨0, 0⟩ 1 ⟨5, 5⟩
    (processMoves ⟨InteractionType.drag, ⟨0, 0⟩, sampleNote, none, none⟩ 1 sampleNote
      [⟨3, 3⟩]) hna
  exact ⟨_, _, _, _, h1, h2,
    snapshot_purity ⟨InteractionType.drag, ⟨0, 0⟩, sampleNote, none, none⟩ 1 sampleNote
      sampleNote [] [⟨3, 3⟩] ⟨5, 5⟩ _ _ _ _ h1 h2⟩

/-! ## Theorems: selection and generate claims -/

/-- C8. Marquee center-only hit test: for an element of a list with distinct
ids, its id is in the marquee's selected-id list iff its center position lies
inside the marquee's world-space axis-aligned box — the element's extent
(width/height/rotation) plays no role. -/
theorem marquee_center_hit_test (pan : Point) (zoom : ℝ) (mStart mEnd : Point)
    (elements : List CanvasElement) (el : CanvasElement)
    (hmem : el ∈ elements) (hnodup : (elements.map CanvasElement.id).Nodup) :
    el.id ∈ marqueeSelectedIds pan zoom mStart mEnd elements ↔
      ((marqueeSelectionBox pan zoom mStart mEnd).minX ≤ el.position.x ∧
        el.position.x ≤ (marqueeSelectionBox pan zoom mStart mEnd).maxX ∧
        (marqueeSelectionBox pan zoom mStart mEnd).minY ≤ el.position.y ∧
        el.position.y ≤ (marqueeSelectionBox pan zoom mStart mEnd).maxY) := by
  unfold marqueeSelectedIds
  constructor
  · intro hid
    obtain ⟨e, he, heid⟩ := List.mem_map.mp hid
    obtain ⟨heMem, hpred⟩ := List.mem_filter.mp he
    have hee : e = el := List.inj_on_of_nodup_map hnodup heMem hmem heid
    subst hee
    simpa [inSelectionBox, ge_iff_le] using hpred
  · intro hbox
    refine List.mem_map.mpr ⟨el, List.mem_filter.mpr ⟨hmem, ?_⟩, rfl⟩
    simpa [inSelectionBox, ge_iff_le] using hbox

/-- C8 witness: `bigNote` (center `(10,10)`, width 100) is not selected by the
screen marquee `(0,0)`-`(5,5)` at pan `(0,0)`, zoom 1 — its body overlaps the
box but its center lies outside. -/
theorem marquee_center_hit_test_witness :
    ¬ (bigNote.id ∈ marqueeSelectedIds ⟨0, 0⟩ 1 ⟨0, 0⟩ ⟨5, 5⟩ [bigNote]) := by
  intro h
  have hbox := (marquee_center_hit_test ⟨0, 0⟩ 1 ⟨0, 0⟩ ⟨5, 5⟩ [bigNote] bigNote
    (by simp) (by simp)).mp h
  obtain ⟨-, hx, -⟩ := hbox
  rw [show (marqueeSelectionBox ⟨0, 0⟩ 1 ⟨0, 0⟩ ⟨5, 5⟩).maxX
      = max (((0 : ℝ) - 0) / 1) (((5 : ℝ) - 0) / 1) from rfl] at hx
  rw [show (((0 : ℝ) - 0) / 1) = (0 : ℝ) by norm_num,
    show (((5 : ℝ) - 0) / 1) = (5 : ℝ) by norm_num,
    max_eq_right (by norm_num : (0 : ℝ) ≤ 5)] at hx
  exact absurd hx (by norm_num [bigNote])

/-- C9. Generate trigger: `handleGenerateClick` makes no call exactly when no
element of the list is currently selected; and whenever it calls
`onGenerate l`, the list `l` is exactly the full element values of the
currently selected elements and is non-empty. -/
theorem generate_trigger_spec (elements : List CanvasElement)
    (selectedElementIds : List String) :
    (handleGenerateClick elements selectedElementIds = none ↔
      ∀ el ∈ elements, el.id ∉ selectedElementIds) ∧
    ∀ l, handleGenerateClick elements selectedElementIds = some l →
      l = elements.filter (fun el => selectedElementIds.contains el.id) ∧ l ≠ [] := by
  unfold handleGenerateClick
  by_cases hlen :
      (elements.filter (fun el => selectedElementIds.contains el.id)).length > 0
  · refine ⟨⟨fun hnone => ?_, fun hall => ?_⟩, fun l hl => ?_⟩
    · rw [if_pos hlen] at hnone
      exact Option.noConfusion hnone
    · exfalso
      obtain ⟨e, he⟩ := List.exists_mem_of_length_pos hlen
      obtain ⟨heMem, hsel⟩ := List.mem_filter.mp he
      exact hall e heMem (by simpa using hsel)
    · rw [if_pos hlen, Option.some.injEq] at hl
      subst hl
      exact ⟨rfl, List.ne_nil_of_length_pos hlen⟩
  · refine ⟨⟨fun _ el hel hid => ?_, fun _ => ?_⟩, fun l hl => ?_⟩
    · exact hlen (List.length_pos.mpr (fun hnil =>
        (List.filter_eq_nil_iff.mp hnil) el hel (by simpa using hid)))
    · rw [if_neg hlen]
    · rw [if_neg hlen] at hl
      exact Option.noConfusion hl

/-- C10. Empty marquee commit is silent: when no element's center lies inside
the marquee's world rectangle, `handleMouseUp` makes no `onMarqueeSelect` call
at all, so the commit never replaces the selection; and the pointer-down path
on empty canvas (left button, no interactive target, no spacebar) is where
deselection happens, via `onSelectElement(null, shiftKey)`. -/
theorem empty_marquee_silent (pan : Point) (zoom : ℝ) (mStart mEnd : Point)
    (elements : List CanvasElement) (shiftKey : Bool) (client : Point)
    (hmiss : ∀ el ∈ elements,
      ¬ ((marqueeSelectionBox pan zoom mStart mEnd).minX ≤ el.position.x ∧
        el.position.x ≤ (marqueeSelectionBox pan zoom mStart mEnd).maxX ∧
        (marqueeSelectionBox pan zoom mStart mEnd).minY ≤ el.position.y ∧
        el.position.y ≤ (marqueeSelectionBox pan zoom mStart mEnd).maxY)) :
    handleMouseUp pan zoom (some (mStart, mEnd)) elements shiftKey = none ∧
    (handleMouseDown pan false client 0 false shiftKey).selectCall =
      some (none, shiftKey) := by
  constructor
  · have hids : marqueeSelectedIds pan zoom mStart mEnd elements = [] := by
      unfold marqueeSelectedIds
      rw [List.map_eq_nil_iff, List.filter_eq_nil_iff]
      intro a ha
      simpa [inSelectionBox, ge_iff_le] using hmiss a ha
    show (if (marqueeSelectedIds pan zoom mStart mEnd elements).length > 0
        then some (marqueeSelectedIds pan zoom mStart mEnd elements, shiftKey)
        else none) = none
    rw [hids]
    rfl
  · show (if (0 : Nat) ≠ 0 ∨ false = true then
          (⟨none, none, none, none⟩ : MouseDownOutcome)
        else if false then ⟨none, none, some true, some ⟨client.x - pan.x, client.y - pan.y⟩⟩
        else ⟨some (none, shiftKey), some (client, client), none, none⟩).selectCall =
      some (none, shiftKey)
    rw [if_neg (by simp)]
    rfl

/-- C10 witness: with no elements at all, the marquee commit makes no
`onMarqueeSelect` call, and a plain left pointer-down on empty canvas emits
`onSelectElement(null, true)`. -/
theorem empty_marquee_silent_witness :
    handleMouseUp ⟨0, 0⟩ 1 (some (⟨0, 0⟩, ⟨5, 5⟩)) [] true = none ∧
    (handleMouseDown ⟨0, 0⟩ false ⟨7, 8⟩ 0 false true).selectCall = some (none, true) :=
  empty_marquee_silent ⟨0, 0⟩ 1 ⟨0, 0⟩ ⟨5, 5⟩ [] true ⟨7, 8⟩
    (fun el h => absurd h (List.not_mem_nil el))

end Dora
